import Mathlib

/-!
Shallow embedding of the `shopping-list-back` repository: two Express
servers exposing shoppingList commands.  The first server ("mock") answers
from hard-coded data; the second ("mongo") persists `ShoppingList`
documents in a store.  Handlers are embedded as pure functions from their
inputs (and, for the mongo server, the store) to a response value carrying
the HTTP status, the success payload and the `uuAppErrorMap`.
-/

namespace SL

/-- JavaScript values as they occur in request bodies / query strings. -/
inductive JValue where
  | undef
  | jnull
  | jbool (b : Bool)
  | jnum (n : Int)
  | jstr (s : String)
deriving DecidableEq, Repr

/-- JS truthiness: `undefined`, `null`, `false`, `0` and `""` are falsy. -/
def isTruthy : JValue → Bool
  | .undef => false
  | .jnull => false
  | .jbool b => b
  | .jnum n => n != 0
  | .jstr s => s != ""

/-- Embeds `String.prototype.trim()`: strip leading and trailing whitespace
(structural version, evaluable by the kernel). -/
def jsTrimList (cs : List Char) : List Char :=
  ((cs.dropWhile Char.isWhitespace).reverse.dropWhile Char.isWhitespace).reverse

/-- Embeds `s.trim()` on a JS string. -/
def jsTrim (s : String) : String :=
  String.mk (jsTrimList s.data)

/-- Embeds `typeof v === "string"`. -/
def isStringType : JValue → Bool
  | .jstr _ => true
  | _ => false

/-- The underlying string of a string value (only used after a
`typeof === "string"` guard in the handlers). -/
def jsStr : JValue → String
  | .jstr s => s
  | _ => ""

/-- Embeds `v ?? d` — nullish coalescing: replaces `undefined` and `null`. -/
def jsCoalesce (v d : JValue) : JValue :=
  match v with
  | .undef => d
  | .jnull => d
  | _ => v

/-- Embeds `v || d` — JS or: replaces any falsy value. -/
def jsOr (v d : JValue) : JValue :=
  if isTruthy v then v else d

/-- Decimal digit parsing for `Number(string)`: the empty digit list
converts to `0` (as `Number("")` does after trimming), any non-digit
character yields `none` (`NaN`). -/
def parseDecimal (cs : List Char) : Option Nat :=
  cs.foldl
    (fun acc c =>
      match acc with
      | none => none
      | some n => if c.isDigit then some (n * 10 + (c.toNat - 48)) else none)
    (some 0)

/-- Embeds `Number(v)` restricted to the integral values the servers deal with;
`none` models `NaN`.  Strings are trimmed, the empty string converts to
`0`, decimal digit strings to their value, anything else to `NaN`. -/
def jsNumber : JValue → Option Int
  | .undef => none
  | .jnull => some 0
  | .jbool b => some (if b then 1 else 0)
  | .jnum n => some n
  | .jstr s => (parseDecimal (jsTrimList s.data)).map Int.ofNat

/-- The check `!v || typeof v !== "string" || v.trim() === ""` used by the
create handlers and the mock update handler for the required `name`. -/
def invalidRequiredName (v : JValue) : Bool :=
  !isTruthy v || !isStringType v || jsTrim (jsStr v) == ""

/-- The check `name !== undefined && (typeof name !== "string" || !name.trim())`
used by the mongo update handler for the optional `name`. -/
def invalidOptionalName (v : JValue) : Bool :=
  v != .undef && (!isStringType v || jsTrim (jsStr v) == "")

/-- The check `state !== undefined && !["active","archived"].includes(state)`
used by the mongo update handler for the optional `state`. -/
def invalidOptionalState (v : JValue) : Bool :=
  v != .undef && !(v == .jstr "active" || v == .jstr "archived")

/-- Models `mongoose.isValidObjectId` on the canonical string form of an
ObjectId: exactly 24 hexadecimal characters. -/
def isHexDigit (c : Char) : Bool :=
  c.isDigit || ('a' ≤ c && c ≤ 'f') || ('A' ≤ c && c ≤ 'F')

/-- Embeds `mongoose.isValidObjectId(id)` for string inputs. -/
def isValidObjectId (s : String) : Bool :=
  s.length == 24 && s.toList.all isHexDigit

/-- One entry of the `uuAppErrorMap` (`buildError` output / the literal
error objects of the mongo server).  `etype` embeds the JS `type` field,
always `"error"`. -/
structure ErrorEntry where
  etype : String
  message : String
  paramMap : List (String × JValue)
deriving DecidableEq, Repr

/-- Embeds `buildError(code, message, paramMap)` of the mock server: the `code`
argument is ignored by the source as well. -/
def buildError (code : String) (message : String)
    (paramMap : List (String × JValue) := []) : ErrorEntry :=
  { etype := "error", message := message, paramMap := paramMap }

/-- An error object literal of the mongo server (no `code` argument). -/
def mkErr (message : String) (paramMap : List (String × JValue) := []) :
    ErrorEntry :=
  { etype := "error", message := message, paramMap := paramMap }

/-- The `uuAppErrorMap`: keys in insertion order with their entries. -/
abbrev ErrMap : Type := List (String × ErrorEntry)

/-- Embeds `Object.keys` of an error map, in insertion order. -/
def errKeys (m : ErrMap) : List String := m.map (fun p => p.1)

/-- A JS object as an ordered list of property assignments; a later
assignment to the same key overwrites an earlier one. -/
def getField {α : Type} (obj : List (String × α)) (k : String) : Option α :=
  (obj.reverse.find? (fun p => p.1 == k)).map (fun p => p.2)

/-- Embeds `buildResponse(dtoOut, errorMap) = { ...dtoOut, uuAppErrorMap: errorMap }`:
the spread copies the payload assignments in order, then the reserved
property is assigned. -/
def buildResponse {α : Type} (dtoOut : List (String × α)) (errorMap : α) :
    List (String × α) :=
  dtoOut ++ [("uuAppErrorMap", errorMap)]

/-- The response of a handler: HTTP status, success payload (`none` embeds
the empty object `{}` sent on failure) and the `uuAppErrorMap`. -/
structure Resp (β : Type) where
  status : Nat
  dtoOut : Option β
  errorMap : ErrMap
deriving DecidableEq

-- ---------- mock server: profiles and authorization ----------

def PROFILES_AUTHORITIES : String := "Authorities"
def PROFILES_USER : String := "User"
def PROFILES_OWNER : String := "ShoppingListOwner"
def PROFILES_MEMBER : String := "ShoppingListMember"

def AWID : String := "shoppingListApp"

/-- The authenticated caller supplied by the mock middleware. -/
structure User where
  uuIdentity : String
  profiles : List String
deriving DecidableEq, Repr

/-- The fixed demo user the mock middleware attaches to every request. -/
def demoUser : User :=
  { uuIdentity := "uu5:1234-5678", profiles := [PROFILES_USER, PROFILES_OWNER] }

/-- A caller holding only the member profile, used to exercise the
authorization gates (the mock middleware comment invites adjusting the
profile list to test authorization behaviour). -/
def memberOnlyUser : User :=
  { uuIdentity := "uu5:9999-0000", profiles := [PROFILES_MEMBER] }

/-- Embeds `hasAnyProfile(req, requiredProfiles)`:
`requiredProfiles.some((p) => req.user.profiles.includes(p))`. -/
def hasAnyProfile (u : User) (requiredProfiles : List String) : Bool :=
  requiredProfiles.any (fun p => u.profiles.contains p)

-- ---------- mock server: payload (dtoOut) shapes ----------

structure Member where
  uuIdentity : String
  role : String
deriving DecidableEq, Repr

structure Item where
  id : String
  name : String
  quantity : Int
  unit : String
  resolved : Bool
deriving DecidableEq, Repr

structure MockCreateDtoOut where
  awid : String
  id : String
  name : String
  state : String
  ownerUuIdentity : String
  members : List Member
  items : List Item
deriving DecidableEq, Repr

structure MockGetDtoOut where
  awid : String
  id : JValue
  name : String
  state : String
  ownerUuIdentity : String
  members : List Member
  items : List Item
deriving DecidableEq, Repr

structure ListSummary where
  id : String
  name : String
  state : String
  ownerUuIdentity : String
  itemCount : Nat
deriving DecidableEq, Repr

structure PageInfo where
  pageIndex : Int
  pageSize : Int
  total : Nat
deriving DecidableEq, Repr

structure MockListDtoOut where
  itemList : List ListSummary
  pageInfo : PageInfo
deriving DecidableEq, Repr

structure MockUpdateDtoOut where
  awid : String
  id : JValue
  name : String
  state : String
  ownerUuIdentity : String
deriving DecidableEq, Repr

structure MockDeleteDtoOut where
  awid : String
  id : JValue
  deleted : Bool
deriving DecidableEq, Repr

structure MockMemberOut where
  uuIdentity : JValue
  role : JValue
deriving DecidableEq, Repr

structure MockAddMemberDtoOut where
  awid : String
  listId : JValue
  member : MockMemberOut
deriving DecidableEq, Repr

structure MockRemoveMemberDtoOut where
  awid : String
  listId : JValue
  removedUuIdentity : JValue
deriving DecidableEq, Repr

structure MockLeaveDtoOut where
  awid : String
  listId : JValue
  leftUuIdentity : String
deriving DecidableEq, Repr

-- ---------- mock server: handlers ----------

/-- Embeds `POST /shoppingList/create` of the mock server.  `now` embeds
`Date.now()`, used only to mint the fake id. -/
def mockCreate (now : Nat) (u : User) (name : JValue) :
    Resp MockCreateDtoOut :=
  if !hasAnyProfile u [PROFILES_USER, PROFILES_AUTHORITIES] then
    { status := 403, dtoOut := none,
      errorMap := [("shoppingList/create/unauthorized",
        buildError "shoppingList/create/unauthorized"
          "User is not authorized to create a shopping list.")] }
  else if invalidRequiredName name then
    { status := 400, dtoOut := none,
      errorMap := [("shoppingList/create/invalidName",
        buildError "shoppingList/create/invalidName"
          "name is required and must be a non-empty string."
          [("name", name)])] }
  else
    { status := 200,
      dtoOut := some
        { awid := AWID, id := "list-" ++ toString now,
          name := jsTrim (jsStr name), state := "active",
          ownerUuIdentity := u.uuIdentity, members := [], items := [] },
      errorMap := [] }

/-- Embeds `GET /shoppingList/get?id=...` of the mock server: the payload is a
fixed example record whatever the id. -/
def mockGet (id : JValue) : Resp MockGetDtoOut :=
  if !isTruthy id then
    { status := 400, dtoOut := none,
      errorMap := [("shoppingList/get/invalidId",
        buildError "shoppingList/get/invalidId" "id is required."
          [("id", id)])] }
  else
    { status := 200,
      dtoOut := some
        { awid := AWID, id := id, name := "Example list", state := "active",
          ownerUuIdentity := "uu5:1234-5678",
          members :=
            [ { uuIdentity := "uu5:1234-5678", role := "owner" },
              { uuIdentity := "uu5:8765-4321", role := "member" } ],
          items :=
            [ { id := "i1", name := "Milk", quantity := 2, unit := "pcs",
                resolved := false },
              { id := "i2", name := "Bread", quantity := 1, unit := "pcs",
                resolved := true } ] },
      errorMap := [] }

/-- Embeds `GET /shoppingList/list?pageIndex=&pageSize=` of the mock server. -/
def mockList (pageIndex pageSize : JValue) : Resp MockListDtoOut :=
  match jsNumber (jsCoalesce pageIndex (.jnum 0)),
        jsNumber (jsCoalesce pageSize (.jnum 50)) with
  | some pi, some ps =>
    { status := 200,
      dtoOut := some
        { itemList :=
            [ { id := "list-1", name := "Saturday Groceries",
                state := "active", ownerUuIdentity := "uu5:1234-5678",
                itemCount := 5 },
              { id := "list-2", name := "Hiking Trip", state := "active",
                ownerUuIdentity := "uu5:4444-1111", itemCount := 3 } ],
          pageInfo := { pageIndex := pi, pageSize := ps, total := 2 } },
      errorMap := [] }
  | _, _ =>
    { status := 400, dtoOut := none,
      errorMap := [("shoppingList/list/invalidPageInfo",
        buildError "shoppingList/list/invalidPageInfo"
          "pageIndex and pageSize must be numbers."
          [("pageIndex", pageIndex), ("pageSize", pageSize)])] }

/-- The error map the mock update handler accumulates over its two field
checks (`id` required truthy, `name` required non-empty string). -/
def mockUpdateErrors (id name : JValue) : ErrMap :=
  (if !isTruthy id then
    [("shoppingList/update/invalidId",
      buildError "shoppingList/update/invalidId" "id is required."
        [("id", id)])]
   else []) ++
  (if invalidRequiredName name then
    [("shoppingList/update/invalidName",
      buildError "shoppingList/update/invalidName"
        "name is required and must be a non-empty string."
        [("name", name)])]
   else [])

/-- Embeds `POST /shoppingList/update` of the mock server.  Note that `state` is
accepted in the body but never read by the handler. -/
def mockUpdate (u : User) (id name state : JValue) : Resp MockUpdateDtoOut :=
  if !hasAnyProfile u [PROFILES_OWNER, PROFILES_AUTHORITIES] then
    { status := 403, dtoOut := none,
      errorMap := [("shoppingList/update/unauthorized",
        buildError "shoppingList/update/unauthorized"
          "User is not authorized to update the shopping list.")] }
  else if (mockUpdateErrors id name).length > 0 then
    { status := 400, dtoOut := none, errorMap := mockUpdateErrors id name }
  else
    { status := 200,
      dtoOut := some
        { awid := AWID, id := id, name := jsTrim (jsStr name),
          state := "active", ownerUuIdentity := u.uuIdentity },
      errorMap := [] }

/-- Embeds `POST /shoppingList/delete` of the mock server: a truthy id always
"succeeds" — there is no store, so nothing is ever looked up. -/
def mockDelete (u : User) (id : JValue) : Resp MockDeleteDtoOut :=
  if !hasAnyProfile u [PROFILES_OWNER, PROFILES_AUTHORITIES] then
    { status := 403, dtoOut := none,
      errorMap := [("shoppingList/delete/unauthorized",
        buildError "shoppingList/delete/unauthorized"
          "User is not authorized to delete the shopping list.")] }
  else if !isTruthy id then
    { status := 400, dtoOut := none,
      errorMap := [("shoppingList/delete/invalidId",
        buildError "shoppingList/delete/invalidId" "id is required."
          [("id", id)])] }
  else
    { status := 200,
      dtoOut := some { awid := AWID, id := id, deleted := true },
      errorMap := [] }

/-- The error map the mock addMember handler accumulates. -/
def mockAddMemberErrors (listId uuIdentity : JValue) : ErrMap :=
  (if !isTruthy listId then
    [("shoppingList/addMember/invalidListId",
      buildError "shoppingList/addMember/invalidListId" "listId is required."
        [("listId", listId)])]
   else []) ++
  (if !isTruthy uuIdentity || !isStringType uuIdentity then
    [("shoppingList/addMember/invalidUuIdentity",
      buildError "shoppingList/addMember/invalidUuIdentity"
        "uuIdentity is required and must be a string."
        [("uuIdentity", uuIdentity)])]
   else [])

/-- Embeds `POST /shoppingList/addMember` of the mock server. -/
def mockAddMember (u : User) (listId uuIdentity role : JValue) :
    Resp MockAddMemberDtoOut :=
  if !hasAnyProfile u [PROFILES_OWNER, PROFILES_AUTHORITIES] then
    { status := 403, dtoOut := none,
      errorMap := [("shoppingList/addMember/unauthorized",
        buildError "shoppingList/addMember/unauthorized"
          "User is not authorized to add members.")] }
  else if (mockAddMemberErrors listId uuIdentity).length > 0 then
    { status := 400, dtoOut := none,
      errorMap := mockAddMemberErrors listId uuIdentity }
  else
    { status := 200,
      dtoOut := some
        { awid := AWID, listId := listId,
          member := { uuIdentity := uuIdentity,
                      role := jsOr role (.jstr "member") } },
      errorMap := [] }

/-- The error map the mock removeMember handler accumulates. -/
def mockRemoveMemberErrors (listId uuIdentity : JValue) : ErrMap :=
  (if !isTruthy listId then
    [("shoppingList/removeMember/invalidListId",
      buildError "shoppingList/removeMember/invalidListId"
        "listId is required." [("listId", listId)])]
   else []) ++
  (if !isTruthy uuIdentity then
    [("shoppingList/removeMember/invalidUuIdentity",
      buildError "shoppingList/removeMember/invalidUuIdentity"
        "uuIdentity is required." [("uuIdentity", uuIdentity)])]
   else [])

/-- Embeds `POST /shoppingList/removeMember` of the mock server. -/
def mockRemoveMember (u : User) (listId uuIdentity : JValue) :
    Resp MockRemoveMemberDtoOut :=
  if !hasAnyProfile u [PROFILES_OWNER, PROFILES_AUTHORITIES] then
    { status := 403, dtoOut := none,
      errorMap := [("shoppingList/removeMember/unauthorized",
        buildError "shoppingList/removeMember/unauthorized"
          "User is not authorized to remove members.")] }
  else if (mockRemoveMemberErrors listId uuIdentity).length > 0 then
    { status := 400, dtoOut := none,
      errorMap := mockRemoveMemberErrors listId uuIdentity }
  else
    { status := 200,
      dtoOut := some
        { awid := AWID, listId := listId, removedUuIdentity := uuIdentity },
      errorMap := [] }

/-- Embeds `POST /shoppingList/leave` of the mock server (no profile gate). -/
def mockLeave (u : User) (listId : JValue) : Resp MockLeaveDtoOut :=
  if !isTruthy listId then
    { status := 400, dtoOut := none,
      errorMap := [("shoppingList/leave/invalidListId",
        buildError "shoppingList/leave/invalidListId" "listId is required."
          [("listId", listId)])] }
  else
    { status := 200,
      dtoOut := some
        { awid := AWID, listId := listId, leftUuIdentity := u.uuIdentity },
      errorMap := [] }

-- ---------- mongo server: store and documents ----------

/-- A stored `ShoppingList` document (mongoose model), minus its `_id`,
which is the key in the store. -/
structure DbList where
  name : String
  state : String
  ownerUuIdentity : String
  members : List Member
  items : List Item
deriving DecidableEq, Repr

/-- The collection of `ShoppingList` documents keyed by ObjectId string. -/
abbrev Store : Type := List (String × DbList)

/-- Embeds `ShoppingList.findById(id)`. -/
def dbFind (store : Store) (id : String) : Option DbList :=
  (store.find? (fun p => p.1 == id)).map (fun p => p.2)

/-- The write half of `findByIdAndUpdate`: replace the document stored
under `id` by `doc`. -/
def replaceById (store : Store) (id : String) (doc : DbList) : Store :=
  store.map (fun p => if p.1 == id then (p.1, doc) else p)

/-- The write half of `findByIdAndDelete`: remove the document stored
under `id`. -/
def removeById (store : Store) (id : String) : Store :=
  store.filter (fun p => !(p.1 == id))

/-- The fixed caller of the mongo server
(`const MOCK_OWNER = "uu5:1234-5678"`). -/
def MOCK_OWNER : String := "uu5:1234-5678"

/-- A one-document store used to instantiate theorems about the mongo
server at concrete inputs. -/
def demoStore : Store :=
  [("aaaaaaaaaaaaaaaaaaaaaaaa",
    { name := "Groceries", state := "active", ownerUuIdentity := MOCK_OWNER,
      members := [{ uuIdentity := MOCK_OWNER, role := "owner" }],
      items := [] })]

-- ---------- mongo server: payload (dtoOut) shapes ----------

/-- The dtoOut shape shared by mongo get / create / update. -/
structure DbDtoOut where
  id : String
  name : String
  state : String
  ownerUuIdentity : String
  members : List Member
  items : List Item
deriving DecidableEq, Repr

structure MongoListDtoOut where
  itemList : List ListSummary
deriving DecidableEq, Repr

structure MongoDeleteDtoOut where
  id : String
  deleted : Bool
deriving DecidableEq, Repr

-- ---------- mongo server: handlers ----------
-- Each handler additionally takes `storeFails : Bool`, embedding whether
-- the awaited store operation inside its try block throws; the catch
-- branch answers 500 with a single `<command>/failed` entry.

/-- Embeds `GET /shoppingList/list` of the mongo server. -/
def mongoList (storeFails : Bool) (store : Store) : Resp MongoListDtoOut :=
  if storeFails then
    { status := 500, dtoOut := none,
      errorMap := [("shoppingList/list/failed",
        mkErr "Unexpected error while listing shopping lists.")] }
  else
    { status := 200,
      dtoOut := some
        { itemList := store.map (fun p =>
            { id := p.1, name := p.2.name, state := p.2.state,
              ownerUuIdentity := p.2.ownerUuIdentity,
              itemCount := p.2.items.length }) },
      errorMap := [] }

/-- Embeds `GET /shoppingList/get/:id` of the mongo server. -/
def mongoGet (storeFails : Bool) (store : Store) (id : String) :
    Resp DbDtoOut :=
  if !isValidObjectId id then
    { status := 400, dtoOut := none,
      errorMap := [("shoppingList/get/invalidId",
        mkErr "id is not a valid ObjectId." [("id", .jstr id)])] }
  else if storeFails then
    { status := 500, dtoOut := none,
      errorMap := [("shoppingList/get/failed",
        mkErr "Unexpected error while getting shopping list.")] }
  else
    match dbFind store id with
    | none =>
      { status := 404, dtoOut := none,
        errorMap := [("shoppingList/get/notFound",
          mkErr "Shopping list not found." [("id", .jstr id)])] }
    | some l =>
      { status := 200,
        dtoOut := some
          { id := id, name := l.name, state := l.state,
            ownerUuIdentity := l.ownerUuIdentity, members := l.members,
            items := l.items },
        errorMap := [] }

/-- Embeds `POST /shoppingList/create` of the mongo server.  `freshId` embeds the
ObjectId the store mints for the new document. -/
def mongoCreate (storeFails : Bool) (store : Store) (freshId : String)
    (name : JValue) : Resp DbDtoOut × Store :=
  if invalidRequiredName name then
    ({ status := 400, dtoOut := none,
       errorMap := [("shoppingList/create/invalidName",
         mkErr "name is required and must be a non-empty string."
           [("name", name)])] }, store)
  else if storeFails then
    ({ status := 500, dtoOut := none,
       errorMap := [("shoppingList/create/failed",
         mkErr "Unexpected error while creating shopping list.")] }, store)
  else
    ({ status := 201,
       dtoOut := some
         { id := freshId, name := jsTrim (jsStr name), state := "active",
           ownerUuIdentity := MOCK_OWNER,
           members := [{ uuIdentity := MOCK_OWNER, role := "owner" }],
           items := [] },
       errorMap := [] },
     store ++ [(freshId,
       { name := jsTrim (jsStr name), state := "active",
         ownerUuIdentity := MOCK_OWNER,
         members := [{ uuIdentity := MOCK_OWNER, role := "owner" }],
         items := [] })])

/-- The error map the mongo update handler accumulates over its three
field checks. -/
def mongoUpdateErrors (id : String) (name state : JValue) : ErrMap :=
  (if !isValidObjectId id then
    [("shoppingList/update/invalidId",
      mkErr "id is not a valid ObjectId." [("id", .jstr id)])]
   else []) ++
  (if invalidOptionalName name then
    [("shoppingList/update/invalidName",
      mkErr "name must be a non-empty string, if provided."
        [("name", name)])]
   else []) ++
  (if invalidOptionalState state then
    [("shoppingList/update/invalidState",
      mkErr "state must be active or archived, if provided."
        [("state", state)])]
   else [])

/-- The `updates` object of the mongo update handler applied to the found
document: `name`/`state` are set only when supplied. -/
def applyUpdates (l : DbList) (name state : JValue) : DbList :=
  let l1 := if name != .undef then { l with name := jsTrim (jsStr name) } else l
  if state != .undef then { l1 with state := jsStr state } else l1

/-- Embeds `PUT /shoppingList/update/:id` of the mongo server. -/
def mongoUpdate (storeFails : Bool) (store : Store) (id : String)
    (name state : JValue) : Resp DbDtoOut × Store :=
  if (mongoUpdateErrors id name state).length > 0 then
    ({ status := 400, dtoOut := none,
       errorMap := mongoUpdateErrors id name state }, store)
  else if storeFails then
    ({ status := 500, dtoOut := none,
       errorMap := [("shoppingList/update/failed",
         mkErr "Unexpected error while updating shopping list.")] }, store)
  else
    match dbFind store id with
    | none =>
      ({ status := 404, dtoOut := none,
         errorMap := [("shoppingList/update/notFound",
           mkErr "Shopping list not found." [("id", .jstr id)])] }, store)
    | some l =>
      ({ status := 200,
         dtoOut := some
           { id := id, name := (applyUpdates l name state).name,
             state := (applyUpdates l name state).state,
             ownerUuIdentity := (applyUpdates l name state).ownerUuIdentity,
             members := (applyUpdates l name state).members,
             items := (applyUpdates l name state).items },
         errorMap := [] },
       replaceById store id (applyUpdates l name state))

/-- Embeds `DELETE /shoppingList/delete/:id` of the mongo server. -/
def mongoDelete (storeFails : Bool) (store : Store) (id : String) :
    Resp MongoDeleteDtoOut × Store :=
  if !isValidObjectId id then
    ({ status := 400, dtoOut := none,
       errorMap := [("shoppingList/delete/invalidId",
         mkErr "id is not a valid ObjectId." [("id", .jstr id)])] }, store)
  else if storeFails then
    ({ status := 500, dtoOut := none,
       errorMap := [("shoppingList/delete/failed",
         mkErr "Unexpected error while deleting shopping list.")] }, store)
  else
    match dbFind store id with
    | none =>
      ({ status := 404, dtoOut := none,
         errorMap := [("shoppingList/delete/notFound",
           mkErr "Shopping list not found." [("id", .jstr id)])] }, store)
    | some _ =>
      ({ status := 200, dtoOut := some { id := id, deleted := true },
         errorMap := [] },
       removeById store id)

/-- The schema invariant of the `state` path of the `ShoppingList` model:
the state of every stored document lies in the enum `{active, archived}`. -/
def storeStatesValid (store : Store) : Prop :=
  ∀ p, p ∈ store → p.2.state = "active" ∨ p.2.state = "archived"

-- ---------- theorems ----------

/-- Envelope discipline for one response: the success statuses occur
exactly when the error map is empty, and only the documented status codes
occur at all. -/
def envOk {β : Type} (r : Resp β) : Prop :=
  ((r.status = 200 ∨ r.status = 201) ↔ r.errorMap = []) ∧
  (r.status = 200 ∨ r.status = 201 ∨ r.status = 400 ∨ r.status = 403 ∨
    r.status = 404 ∨ r.status = 500)

lemma envOk_mockCreate (now : Nat) (u : User) (name : JValue) :
    envOk (mockCreate now u name) := by
  unfold envOk mockCreate
  split_ifs <;> simp

lemma envOk_mockGet (id : JValue) : envOk (mockGet id) := by
  unfold envOk mockGet
  split_ifs <;> simp

lemma envOk_mockList (pageIndex pageSize : JValue) :
    envOk (mockList pageIndex pageSize) := by
  unfold envOk mockList
  split <;> simp

lemma envOk_mockUpdate (u : User) (id name state : JValue) :
    envOk (mockUpdate u id name state) := by
  unfold envOk mockUpdate
  split_ifs with h1 h2 <;>
    simp_all [List.ne_nil_of_length_pos]

lemma envOk_mockDelete (u : User) (id : JValue) :
    envOk (mockDelete u id) := by
  unfold envOk mockDelete
  split_ifs <;> simp

lemma envOk_mockAddMember (u : User) (listId uuIdentity role : JValue) :
    envOk (mockAddMember u listId uuIdentity role) := by
  unfold envOk mockAddMember
  split_ifs with h1 h2 <;>
    simp_all [List.ne_nil_of_length_pos]

lemma envOk_mockRemoveMember (u : User) (listId uuIdentity : JValue) :
    envOk (mockRemoveMember u listId uuIdentity) := by
  unfold envOk mockRemoveMember
  split_ifs with h1 h2 <;>
    simp_all [List.ne_nil_of_length_pos]

lemma envOk_mockLeave (u : User) (listId : JValue) :
    envOk (mockLeave u listId) := by
  unfold envOk mockLeave
  split_ifs <;> simp

lemma envOk_mongoList (storeFails : Bool) (store : Store) :
    envOk (mongoList storeFails store) := by
  unfold envOk mongoList
  split_ifs <;> simp

lemma envOk_mongoGet (storeFails : Bool) (store : Store) (id : String) :
    envOk (mongoGet storeFails store id) := by
  unfold envOk mongoGet
  split_ifs <;> [skip; skip; split] <;> simp

lemma envOk_mongoCreate (storeFails : Bool) (store : Store)
    (freshId : String) (name : JValue) :
    envOk (mongoCreate storeFails store freshId name).1 := by
  unfold envOk mongoCreate
  split_ifs <;> simp

lemma envOk_mongoUpdate (storeFails : Bool) (store : Store) (id : String)
    (name state : JValue) :
    envOk (mongoUpdate storeFails store id name state).1 := by
  unfold envOk mongoUpdate
  split_ifs with h1 h2 <;> [skip; skip; split] <;>
    simp_all [List.ne_nil_of_length_pos]

lemma envOk_mongoDelete (storeFails : Bool) (store : Store) (id : String) :
    envOk (mongoDelete storeFails store id).1 := by
  unfold envOk mongoDelete
  split_ifs <;> [skip; skip; split] <;> simp

/-- C1: for every request to any command of either server, the response
carries the `uuAppErrorMap` field (the envelope builder always appends
it), the map is empty iff the status is a success (200/201), and every
failure status (400/403/404/500) comes with a non-empty map. -/
theorem C1_error_map_envelope :
    (∀ (α : Type) (payload : List (String × α)) (e : α),
      getField (buildResponse payload e) "uuAppErrorMap" = some e) ∧
    (∀ now u name, envOk (mockCreate now u name)) ∧
    (∀ id, envOk (mockGet id)) ∧
    (∀ pageIndex pageSize, envOk (mockList pageIndex pageSize)) ∧
    (∀ u id name state, envOk (mockUpdate u id name state)) ∧
    (∀ u id, envOk (mockDelete u id)) ∧
    (∀ u listId uuIdentity role, envOk (mockAddMember u listId uuIdentity role)) ∧
    (∀ u listId uuIdentity, envOk (mockRemoveMember u listId uuIdentity)) ∧
    (∀ u listId, envOk (mockLeave u listId)) ∧
    (∀ storeFails store, envOk (mongoList storeFails store)) ∧
    (∀ storeFails store id, envOk (mongoGet storeFails store id)) ∧
    (∀ storeFails store freshId name,
      envOk (mongoCreate storeFails store freshId name).1) ∧
    (∀ storeFails store id name state,
      envOk (mongoUpdate storeFails store id name state).1) ∧
    (∀ storeFails store id, envOk (mongoDelete storeFails store id).1) := by
  refine ⟨?_, envOk_mockCreate, envOk_mockGet, envOk_mockList,
    envOk_mockUpdate, envOk_mockDelete, envOk_mockAddMember,
    envOk_mockRemoveMember, envOk_mockLeave, envOk_mongoList,
    envOk_mongoGet, envOk_mongoCreate, envOk_mongoUpdate, envOk_mongoDelete⟩
  intro α payload e
  unfold getField buildResponse
  simp

/-- C9: `buildResponse` always sets the reserved `uuAppErrorMap` property
to the supplied error-map argument; even when the payload itself assigns a
property named `uuAppErrorMap`, the assignment spread after the payload
wins, so the reserved field cannot be shadowed. -/
theorem C9_buildResponse_reserved_field :
    (∀ (α : Type) (dtoOut : List (String × α)) (errorMap : α),
      getField (buildResponse dtoOut errorMap) "uuAppErrorMap" =
        some errorMap) ∧
    (∀ (α : Type) (pre post : List (String × α)) (v errorMap : α),
      getField (buildResponse (pre ++ [("uuAppErrorMap", v)] ++ post)
        errorMap) "uuAppErrorMap" = some errorMap) := by
  constructor
  · intro α dtoOut errorMap
    unfold getField buildResponse
    simp
  · intro α pre post v errorMap
    unfold getField buildResponse
    simp

/-- C2: update validation checks every field and aggregates: the error map
of an update request lists exactly one entry per invalid field — `id` and
`name` on the mock server, `id`, `name` and `state` on the mongo server —
and does not stop at the first violation. -/
theorem C2_update_validation_aggregates :
    (∀ u id name state,
      hasAnyProfile u [PROFILES_OWNER, PROFILES_AUTHORITIES] = true →
      errKeys (mockUpdate u id name state).errorMap =
        (if !isTruthy id then ["shoppingList/update/invalidId"] else []) ++
        (if invalidRequiredName name then ["shoppingList/update/invalidName"]
         else [])) ∧
    (∀ storeFails store id name state,
      (isValidObjectId id = false ∨ invalidOptionalName name = true ∨
        invalidOptionalState state = true) →
      (mongoUpdate storeFails store id name state).1.status = 400 ∧
      errKeys (mongoUpdate storeFails store id name state).1.errorMap =
        (if !isValidObjectId id then ["shoppingList/update/invalidId"]
         else []) ++
        (if invalidOptionalName name then ["shoppingList/update/invalidName"]
         else []) ++
        (if invalidOptionalState state then
          ["shoppingList/update/invalidState"] else [])) := by
  constructor
  · intro u id name state h
    by_cases hid : isTruthy id = true <;>
      by_cases hname : invalidRequiredName name = true <;>
      simp_all [mockUpdate, mockUpdateErrors, errKeys]
  · intro storeFails store id name state hinv
    by_cases hid : isValidObjectId id = true <;>
      by_cases hname : invalidOptionalName name = true <;>
      by_cases hstate : invalidOptionalState state = true <;>
      simp_all [mongoUpdate, mongoUpdateErrors, errKeys]

/-- Witness for C2 at concrete all-invalid inputs: missing id plus blank
name on the mock server, malformed id plus blank name plus state
`"deleted"` on the mongo server. -/
theorem C2_update_validation_aggregates_witness :
    errKeys (mockUpdate demoUser .undef (.jstr "  ") .undef).errorMap =
      ["shoppingList/update/invalidId", "shoppingList/update/invalidName"] ∧
    (mongoUpdate false [] "zz" (.jstr " ") (.jstr "deleted")).1.status =
      400 ∧
    errKeys (mongoUpdate false [] "zz" (.jstr " ")
        (.jstr "deleted")).1.errorMap =
      ["shoppingList/update/invalidId", "shoppingList/update/invalidName",
       "shoppingList/update/invalidState"] := by
  have h1 := C2_update_validation_aggregates.1 demoUser .undef (.jstr "  ")
    .undef (by decide)
  have h2 := C2_update_validation_aggregates.2 false [] "zz" (.jstr " ")
    (.jstr "deleted") (Or.inl (by decide))
  refine ⟨?_, h2.1, ?_⟩
  · rw [h1]; decide
  · rw [h2.2]; decide

/-- C3: a caller whose profile set misses every required profile of a
gated command gets a 403 whose error map holds exactly the one key
`<command>/unauthorized`, with an empty payload, and the response does not
depend on any input field (validation never runs; the mock server has no
store to mutate).  `hasAnyProfile u req = false` states that the role set of
the caller and the required-role set have empty intersection. -/
theorem C3_unauthorized_short_circuit :
    (∀ u req, hasAnyProfile u req = false ↔
      ∀ p, p ∈ req → p ∉ u.profiles) ∧
    (∀ u now name,
      hasAnyProfile u [PROFILES_USER, PROFILES_AUTHORITIES] = false →
      (mockCreate now u name).status = 403 ∧
      errKeys (mockCreate now u name).errorMap =
        ["shoppingList/create/unauthorized"] ∧
      (mockCreate now u name).dtoOut = none ∧
      (∀ now2 name2, mockCreate now u name = mockCreate now2 u name2)) ∧
    (∀ u id name state,
      hasAnyProfile u [PROFILES_OWNER, PROFILES_AUTHORITIES] = false →
      (mockUpdate u id name state).status = 403 ∧
      errKeys (mockUpdate u id name state).errorMap =
        ["shoppingList/update/unauthorized"] ∧
      (mockUpdate u id name state).dtoOut = none ∧
      (∀ id2 name2 state2,
        mockUpdate u id name state = mockUpdate u id2 name2 state2)) ∧
    (∀ u id,
      hasAnyProfile u [PROFILES_OWNER, PROFILES_AUTHORITIES] = false →
      (mockDelete u id).status = 403 ∧
      errKeys (mockDelete u id).errorMap =
        ["shoppingList/delete/unauthorized"] ∧
      (mockDelete u id).dtoOut = none ∧
      (∀ id2, mockDelete u id = mockDelete u id2)) ∧
    (∀ u listId uuIdentity role,
      hasAnyProfile u [PROFILES_OWNER, PROFILES_AUTHORITIES] = false →
      (mockAddMember u listId uuIdentity role).status = 403 ∧
      errKeys (mockAddMember u listId uuIdentity role).errorMap =
        ["shoppingList/addMember/unauthorized"] ∧
      (mockAddMember u listId uuIdentity role).dtoOut = none ∧
      (∀ l2 i2 r2,
        mockAddMember u listId uuIdentity role = mockAddMember u l2 i2 r2)) ∧
    (∀ u listId uuIdentity,
      hasAnyProfile u [PROFILES_OWNER, PROFILES_AUTHORITIES] = false →
      (mockRemoveMember u listId uuIdentity).status = 403 ∧
      errKeys (mockRemoveMember u listId uuIdentity).errorMap =
        ["shoppingList/removeMember/unauthorized"] ∧
      (mockRemoveMember u listId uuIdentity).dtoOut = none ∧
      (∀ l2 i2,
        mockRemoveMember u listId uuIdentity = mockRemoveMember u l2 i2)) := by
  refine ⟨?_, ?_, ?_, ?_, ?_, ?_⟩
  · intro u req
    simp [hasAnyProfile, List.any_eq_true]
  · intro u now name h
    simp [mockCreate, h, errKeys]
  · intro u id name state h
    simp [mockUpdate, h, errKeys]
  · intro u id h
    simp [mockDelete, h, errKeys]
  · intro u listId uuIdentity role h
    simp [mockAddMember, h, errKeys]
  · intro u listId uuIdentity h
    simp [mockRemoveMember, h, errKeys]

/-- Witness for C3: a caller holding only the member profile is turned
away by the update command with exactly the unauthorized key. -/
theorem C3_unauthorized_short_circuit_witness :
    (mockUpdate memberOnlyUser (.jstr "1") (.jstr "x") .undef).status =
      403 ∧
    errKeys (mockUpdate memberOnlyUser
        (.jstr "1") (.jstr "x") .undef).errorMap =
      ["shoppingList/update/unauthorized"] := by
  have h := C3_unauthorized_short_circuit.2.2.1 memberOnlyUser
    (.jstr "1") (.jstr "x") .undef (by decide)
  exact ⟨h.1, h.2.1⟩

/-- C4: for every create input whose `name` is a string that is non-empty
after trimming, both servers answer with a record whose `name` is the
trimmed input and whose `state` is `"active"`. -/
theorem C4_create_trims_name_state_active :
    (∀ now u s,
      hasAnyProfile u [PROFILES_USER, PROFILES_AUTHORITIES] = true →
      jsTrim s ≠ "" →
      (mockCreate now u (.jstr s)).status = 200 ∧
      (mockCreate now u (.jstr s)).dtoOut.map MockCreateDtoOut.name =
        some (jsTrim s) ∧
      (mockCreate now u (.jstr s)).dtoOut.map MockCreateDtoOut.state =
        some "active") ∧
    (∀ store freshId s, jsTrim s ≠ "" →
      (mongoCreate false store freshId (.jstr s)).1.status = 201 ∧
      (mongoCreate false store freshId (.jstr s)).1.dtoOut.map
        DbDtoOut.name = some (jsTrim s) ∧
      (mongoCreate false store freshId (.jstr s)).1.dtoOut.map
        DbDtoOut.state = some "active") := by
  have hne : ∀ s : String, jsTrim s ≠ "" → s ≠ "" := by
    intro s h hs
    subst hs
    exact h rfl
  have hval : ∀ s : String, jsTrim s ≠ "" →
      invalidRequiredName (.jstr s) = false := by
    intro s h
    have := hne s h
    simp [invalidRequiredName, isTruthy, isStringType, jsStr, this, h]
  constructor
  · intro now u s hu h
    simp [mockCreate, hu, hval s h, jsStr]
  · intro store freshId s h
    simp [mongoCreate, hval s h, jsStr]

/-- Witness for C4 on the name `"  Saturday Groceries "`, which trims to
`"Saturday Groceries"`. -/
theorem C4_create_trims_name_state_active_witness :
    (mockCreate 0 demoUser (.jstr "  Saturday Groceries ")).dtoOut.map
      MockCreateDtoOut.name = some "Saturday Groceries" ∧
    (mongoCreate false [] "aaaaaaaaaaaaaaaaaaaaaaaa"
      (.jstr "  Saturday Groceries ")).1.dtoOut.map DbDtoOut.state =
      some "active" := by
  have h1 := C4_create_trims_name_state_active.1 0 demoUser
    "  Saturday Groceries " (by decide) (by decide)
  have h2 := C4_create_trims_name_state_active.2 [] "aaaaaaaaaaaaaaaaaaaaaaaa"
    "  Saturday Groceries " (by decide)
  refine ⟨?_, h2.2.2⟩
  rw [h1.2.1]
  decide

lemma invalidRequiredName_eq_false (s : String) (h : jsTrim s ≠ "") :
    invalidRequiredName (.jstr s) = false := by
  have hs : s ≠ "" := by
    intro he
    subst he
    exact h rfl
  simp [invalidRequiredName, isTruthy, isStringType, jsStr, hs, h]

lemma dbFind_replaceById_ne (store : Store) (id : String) (doc : DbList)
    (i : String) (h : ¬ i = id) :
    dbFind (replaceById store id doc) i = dbFind store i := by
  induction store with
  | nil => rfl
  | cons hd tl ih =>
    obtain ⟨k, v⟩ := hd
    unfold replaceById dbFind at ih ⊢
    by_cases hk : k = id <;> by_cases hik : k = i <;>
      simp_all [List.find?_cons]

lemma dbFind_replaceById_self (store : Store) (id : String) (doc : DbList)
    (r : DbList) (h : dbFind store id = some r) :
    dbFind (replaceById store id doc) id = some doc := by
  induction store with
  | nil => simp [dbFind] at h
  | cons hd tl ih =>
    obtain ⟨k, v⟩ := hd
    by_cases hk : k = id
    · subst hk
      simp [dbFind, replaceById, List.find?_cons]
    · have hkb : (k == id) = false := by simp [hk]
      have hh : dbFind tl id = some r := by
        simp only [dbFind, List.find?_cons, hkb] at h
        exact h
      have hres := ih hh
      simp only [replaceById, List.map_cons, hkb, Bool.false_eq_true,
        if_false, dbFind, List.find?_cons]
      simp only [replaceById, dbFind] at hres
      simpa [hkb] using hres

lemma mem_of_dbFind (store : Store) (id : String) (l : DbList)
    (h : dbFind store id = some l) : ∃ p, p ∈ store ∧ p.2 = l := by
  unfold dbFind at h
  obtain ⟨p, hp, hpl⟩ := Option.map_eq_some'.mp h
  exact ⟨p, List.mem_of_find?_eq_some hp, hpl⟩

lemma storeStatesValid_replaceById (store : Store) (id : String)
    (doc : DbList) (h : storeStatesValid store)
    (hdoc : doc.state = "active" ∨ doc.state = "archived") :
    storeStatesValid (replaceById store id doc) := by
  intro p hp
  unfold replaceById at hp
  rw [List.mem_map] at hp
  obtain ⟨q, hq, hpq⟩ := hp
  by_cases hqid : (q.1 == id) = true
  · rw [if_pos hqid] at hpq
    rw [← hpq]
    exact hdoc
  · rw [if_neg hqid] at hpq
    rw [← hpq]
    exact h q hq

/-- C5 counterexample: the mock update command does not validate `state`
at all — a request with `state: "deleted"` (and well-formed id and name)
succeeds with 200 and an empty error map instead of being rejected with
400 and the `invalidState` key. -/
theorem C5_counterexample :
    (mockUpdate demoUser (.jstr "1") (.jstr "x") (.jstr "deleted")).status
      = 200 ∧
    ¬ (mockUpdate demoUser (.jstr "1") (.jstr "x")
        (.jstr "deleted")).status = 400 ∧
    errKeys (mockUpdate demoUser (.jstr "1") (.jstr "x")
        (.jstr "deleted")).errorMap = [] := by
  decide

/-- C5 amended: in the database-backed implementation every update request
supplying a state outside `{active, archived}` is rejected with 400, the
error map holds `shoppingList/update/invalidState`, and the store is left
unchanged; moreover no operation of either implementation ever produces a
state outside the enum — the mongo mutators preserve the store-state
invariant and the mock update always answers `state = "active"`.  (The
mock implementation itself ignores the supplied state and never rejects
it.) -/
theorem C5_amended_invalid_state :
    (∀ storeFails store id name state,
      invalidOptionalState state = true →
      (mongoUpdate storeFails store id name state).1.status = 400 ∧
      "shoppingList/update/invalidState" ∈
        errKeys (mongoUpdate storeFails store id name state).1.errorMap ∧
      (mongoUpdate storeFails store id name state).2 = store) ∧
    (∀ storeFails store freshId name, storeStatesValid store →
      storeStatesValid (mongoCreate storeFails store freshId name).2) ∧
    (∀ storeFails store id name state, storeStatesValid store →
      storeStatesValid (mongoUpdate storeFails store id name state).2) ∧
    (∀ storeFails store id, storeStatesValid store →
      storeStatesValid (mongoDelete storeFails store id).2) ∧
    (∀ u id name state d,
      (mockUpdate u id name state).dtoOut = some d → d.state = "active") := by
  refine ⟨?_, ?_, ?_, ?_, ?_⟩
  · intro storeFails store id name state hstate
    have hlen : (mongoUpdateErrors id name state).length > 0 := by
      unfold mongoUpdateErrors
      rw [hstate]
      simp
    unfold mongoUpdate
    rw [if_pos hlen]
    refine ⟨rfl, ?_, rfl⟩
    unfold mongoUpdateErrors errKeys
    rw [hstate]
    simp
  · intro storeFails store freshId name h
    unfold mongoCreate
    split_ifs <;> try exact h
    intro p hp
    rw [List.mem_append] at hp
    rcases hp with hp | hp
    · exact h p hp
    · rw [List.mem_singleton] at hp
      rw [hp]
      exact Or.inl rfl
  · intro storeFails store id name state h
    unfold mongoUpdate
    split_ifs with h1 h2
    · exact h
    · exact h
    split
    · exact h
    next l hfind =>
      have hstate_ok : invalidOptionalState state = false := by
        by_contra hc
        rw [Bool.not_eq_false] at hc
        apply h1
        unfold mongoUpdateErrors
        rw [hc]
        simp
      refine storeStatesValid_replaceById store id _ h ?_
      by_cases hs : state = JValue.undef
      · subst hs
        have hl : l.state = "active" ∨ l.state = "archived" := by
          obtain ⟨p, hp, hpl⟩ := mem_of_dbFind store id l hfind
          rw [← hpl]
          exact h p hp
        by_cases hn : name = JValue.undef <;> simp [applyUpdates, hn, hl]
      · have hst : state = JValue.jstr "active" ∨
            state = JValue.jstr "archived" := by
          unfold invalidOptionalState at hstate_ok
          simp [hs] at hstate_ok
          exact or_iff_not_imp_left.mpr hstate_ok
        rcases hst with hst | hst <;> subst hst <;>
          by_cases hn : name = JValue.undef <;>
          simp [applyUpdates, hn, jsStr]
  · intro storeFails store id h
    unfold mongoDelete
    split_ifs <;> try exact h
    split
    · exact h
    · intro p hp
      exact h p (List.mem_of_mem_filter hp)
  · intro u id name state d hd
    unfold mockUpdate at hd
    split_ifs at hd <;> simp_all
    rw [← hd]

/-- Witness for the amended C5 at concrete inputs over `demoStore`. -/
theorem C5_amended_invalid_state_witness :
    (mongoUpdate false demoStore "aaaaaaaaaaaaaaaaaaaaaaaa" .undef
      (.jstr "deleted")).1.status = 400 ∧
    "shoppingList/update/invalidState" ∈
      errKeys (mongoUpdate false demoStore "aaaaaaaaaaaaaaaaaaaaaaaa"
        .undef (.jstr "deleted")).1.errorMap ∧
    (mongoUpdate false demoStore "aaaaaaaaaaaaaaaaaaaaaaaa" .undef
      (.jstr "deleted")).2 = demoStore ∧
    storeStatesValid (mongoCreate false demoStore
      "bbbbbbbbbbbbbbbbbbbbbbbb" (.jstr "Foo")).2 ∧
    storeStatesValid (mongoUpdate false demoStore
      "aaaaaaaaaaaaaaaaaaaaaaaa" .undef (.jstr "archived")).2 ∧
    storeStatesValid (mongoDelete false demoStore
      "aaaaaaaaaaaaaaaaaaaaaaaa").2 := by
  have hval : storeStatesValid demoStore := by
    intro p hp
    simp only [demoStore, List.mem_singleton] at hp
    rw [hp]
    exact Or.inl rfl
  have h1 := C5_amended_invalid_state.1 false demoStore
    "aaaaaaaaaaaaaaaaaaaaaaaa" .undef (.jstr "deleted") (by decide)
  exact ⟨h1.1, h1.2.1, h1.2.2,
    C5_amended_invalid_state.2.1 false demoStore "bbbbbbbbbbbbbbbbbbbbbbbb"
      (.jstr "Foo") hval,
    C5_amended_invalid_state.2.2.1 false demoStore
      "aaaaaaaaaaaaaaaaaaaaaaaa" .undef (.jstr "archived") hval,
    C5_amended_invalid_state.2.2.2.1 false demoStore
      "aaaaaaaaaaaaaaaaaaaaaaaa" hval⟩

/-- C6 counterexample: on the mock server, create(name="Foo") yields the
id "list-0" (at clock 0), but get with that id answers the hard-coded
record named "Example list", so the round-trip does not return the
created name. -/
theorem C6_counterexample :
    (mockCreate 0 demoUser (.jstr "Foo")).dtoOut.map MockCreateDtoOut.id =
      some "list-0" ∧
    (mockCreate 0 demoUser (.jstr "Foo")).dtoOut.map
      MockCreateDtoOut.name = some "Foo" ∧
    (mockGet (.jstr "list-0")).status = 200 ∧
    (mockGet (.jstr "list-0")).dtoOut.map MockGetDtoOut.name =
      some "Example list" ∧
    ¬ ("Example list" : String) = "Foo" := by
  decide

/-- C6 amended: in the database-backed implementation the round-trip law
holds — create(name=X) inserts a fresh document and get with the returned
id answers the trimmed name, state `"active"`, and a members list holding
exactly the owner entry for the identity of the caller (`MOCK_OWNER`).  On the
mock server get answers a fixed example record, so the round-trip returns
the created name only when X trims to "Example list". -/
theorem C6_amended_roundtrip (store : Store) (freshId : String) (s : String)
    (hid : isValidObjectId freshId = true)
    (hfresh : dbFind store freshId = none)
    (hname : jsTrim s ≠ "") :
    (mongoCreate false store freshId (.jstr s)).1.dtoOut.map DbDtoOut.id =
      some freshId ∧
    mongoGet false (mongoCreate false store freshId (.jstr s)).2 freshId =
      { status := 200,
        dtoOut := some
          { id := freshId, name := jsTrim s, state := "active",
            ownerUuIdentity := MOCK_OWNER,
            members := [{ uuIdentity := MOCK_OWNER, role := "owner" }],
            items := [] },
        errorMap := [] } ∧
    (∀ d, (mongoGet false (mongoCreate false store freshId (.jstr s)).2
        freshId).dtoOut = some d →
      ({ uuIdentity := MOCK_OWNER, role := "owner" } : Member) ∈
        d.members) := by
  have hinv := invalidRequiredName_eq_false s hname
  have hstore : (mongoCreate false store freshId (.jstr s)).2 =
      store ++ [(freshId,
        { name := jsTrim s, state := "active",
          ownerUuIdentity := MOCK_OWNER,
          members := [{ uuIdentity := MOCK_OWNER, role := "owner" }],
          items := [] })] := by
    simp [mongoCreate, hinv, jsStr]
  have hfind : dbFind (mongoCreate false store freshId (.jstr s)).2
      freshId = some
        { name := jsTrim s, state := "active",
          ownerUuIdentity := MOCK_OWNER,
          members := [{ uuIdentity := MOCK_OWNER, role := "owner" }],
          items := [] } := by
    rw [hstore]
    unfold dbFind at hfresh ⊢
    rw [List.find?_append, Option.map_eq_none'.mp hfresh, Option.none_or]
    simp [List.find?_cons]
  have hget : mongoGet false (mongoCreate false store freshId (.jstr s)).2
      freshId =
      { status := 200,
        dtoOut := some
          { id := freshId, name := jsTrim s, state := "active",
            ownerUuIdentity := MOCK_OWNER,
            members := [{ uuIdentity := MOCK_OWNER, role := "owner" }],
            items := [] },
        errorMap := [] } := by
    unfold mongoGet
    rw [hid, hfind]
    simp
  refine ⟨?_, hget, ?_⟩
  · simp [mongoCreate, hinv, jsStr]
  · intro d hd
    rw [hget] at hd
    simp only [Option.some_inj] at hd
    rw [← hd]
    exact List.mem_singleton.mpr rfl

/-- Witness for the amended C6: creating " Foo " in the empty store and
reading it back through the returned id. -/
theorem C6_amended_roundtrip_witness :
    mongoGet false (mongoCreate false [] "aaaaaaaaaaaaaaaaaaaaaaaa"
        (.jstr " Foo ")).2 "aaaaaaaaaaaaaaaaaaaaaaaa" =
      { status := 200,
        dtoOut := some
          { id := "aaaaaaaaaaaaaaaaaaaaaaaa", name := "Foo",
            state := "active", ownerUuIdentity := MOCK_OWNER,
            members := [{ uuIdentity := MOCK_OWNER, role := "owner" }],
            items := [] },
        errorMap := [] } := by
  have h := C6_amended_roundtrip [] "aaaaaaaaaaaaaaaaaaaaaaaa" " Foo "
    (by decide) rfl (by decide)
  rw [h.2.1]
  decide

/-- C7 counterexample: the mock delete command answers 200 with
`deleted: true` for a well-formed identifier even though the mock server
stores no record at all, instead of the claimed 404 `notFound`. -/
theorem C7_counterexample :
    isValidObjectId "aaaaaaaaaaaaaaaaaaaaaaaa" = true ∧
    (mockDelete demoUser (.jstr "aaaaaaaaaaaaaaaaaaaaaaaa")).status =
      200 ∧
    ¬ (mockDelete demoUser (.jstr "aaaaaaaaaaaaaaaaaaaaaaaa")).status =
      404 ∧
    errKeys (mockDelete demoUser
      (.jstr "aaaaaaaaaaaaaaaaaaaaaaaa")).errorMap = [] ∧
    (mockDelete demoUser (.jstr "aaaaaaaaaaaaaaaaaaaaaaaa")).dtoOut.map
      MockDeleteDtoOut.deleted = some true := by
  decide

/-- C7 amended: in the database-backed implementation, deleting a
well-formed identifier that resolves to no stored document answers 404
with exactly the key `shoppingList/delete/notFound` and leaves the store
unchanged (so deleting an already-deleted id fails cleanly).  The mock
delete command has no store and answers 200 for any truthy id. -/
theorem C7_amended_delete_not_found (store : Store) (id : String)
    (hid : isValidObjectId id = true) (hfind : dbFind store id = none) :
    (mongoDelete false store id).1.status = 404 ∧
    errKeys (mongoDelete false store id).1.errorMap =
      ["shoppingList/delete/notFound"] ∧
    (mongoDelete false store id).2 = store := by
  unfold mongoDelete
  rw [hid, hfind]
  exact ⟨rfl, rfl, rfl⟩

/-- Witness for the amended C7 on the empty store. -/
theorem C7_amended_delete_not_found_witness :
    (mongoDelete false [] "aaaaaaaaaaaaaaaaaaaaaaaa").1.status = 404 ∧
    errKeys (mongoDelete false [] "aaaaaaaaaaaaaaaaaaaaaaaa").1.errorMap =
      ["shoppingList/delete/notFound"] ∧
    (mongoDelete false [] "aaaaaaaaaaaaaaaaaaaaaaaa").2 = [] := by
  exact C7_amended_delete_not_found [] "aaaaaaaaaaaaaaaaaaaaaaaa"
    (by decide) rfl

/-- C8 counterexample: the mock create command sends its success response
with `res.json(...)`, i.e. HTTP 200, not the claimed 201. -/
theorem C8_counterexample :
    (mockCreate 0 demoUser (.jstr "Saturday Groceries")).status = 200 ∧
    ¬ (mockCreate 0 demoUser (.jstr "Saturday Groceries")).status =
      201 ∧
    errKeys (mockCreate 0 demoUser
      (.jstr "Saturday Groceries")).errorMap = [] := by
  decide

/-- C8 amended: for every valid create request the response body carries
`id`, the trimmed `name`, `state: "active"` and an empty `uuAppErrorMap`;
the database-backed implementation sends it with status 201, while the
mock implementation sends the same body shape with status 200. -/
theorem C8_amended_create_status :
    (∀ store freshId s, jsTrim s ≠ "" →
      (mongoCreate false store freshId (.jstr s)).1 =
        { status := 201,
          dtoOut := some
            { id := freshId, name := jsTrim s, state := "active",
              ownerUuIdentity := MOCK_OWNER,
              members := [{ uuIdentity := MOCK_OWNER, role := "owner" }],
              items := [] },
          errorMap := [] }) ∧
    (∀ now u s,
      hasAnyProfile u [PROFILES_USER, PROFILES_AUTHORITIES] = true →
      jsTrim s ≠ "" →
      mockCreate now u (.jstr s) =
        { status := 200,
          dtoOut := some
            { awid := AWID, id := "list-" ++ toString now,
              name := jsTrim s, state := "active",
              ownerUuIdentity := u.uuIdentity, members := [],
              items := [] },
          errorMap := [] }) := by
  constructor
  · intro store freshId s h
    simp [mongoCreate, invalidRequiredName_eq_false s h, jsStr]
  · intro now u s hu h
    simp [mockCreate, hu, invalidRequiredName_eq_false s h, jsStr]

/-- Witness for the amended C8 on the name "Saturday Groceries". -/
theorem C8_amended_create_status_witness :
    (mongoCreate false [] "aaaaaaaaaaaaaaaaaaaaaaaa"
      (.jstr "Saturday Groceries")).1.status = 201 ∧
    (mockCreate 0 demoUser (.jstr "Saturday Groceries")).status = 200 := by
  have h1 := C8_amended_create_status.1 [] "aaaaaaaaaaaaaaaaaaaaaaaa"
    "Saturday Groceries" (by decide)
  have h2 := C8_amended_create_status.2 0 demoUser "Saturday Groceries"
    (by decide) (by decide)
  rw [h1, h2]
  exact ⟨rfl, rfl⟩

/-- C10: the database-backed update treats `name` and `state` as
optional: a request with a well-formed id resolving to a stored document
and neither field supplied passes validation, answers 200 with the
fields of the document unchanged, and leaves every store lookup unchanged. -/
theorem C10_update_without_fields_is_noop (store : Store) (id : String)
    (r : DbList) (hid : isValidObjectId id = true)
    (hfind : dbFind store id = some r) :
    (mongoUpdate false store id .undef .undef).1 =
      { status := 200,
        dtoOut := some
          { id := id, name := r.name, state := r.state,
            ownerUuIdentity := r.ownerUuIdentity, members := r.members,
            items := r.items },
        errorMap := [] } ∧
    (∀ i, dbFind (mongoUpdate false store id .undef .undef).2 i =
      dbFind store i) := by
  have herrs : mongoUpdateErrors id JValue.undef JValue.undef = [] := by
    simp [mongoUpdateErrors, hid, invalidOptionalName, invalidOptionalState]
  have happ : applyUpdates r JValue.undef JValue.undef = r := rfl
  constructor
  · simp [mongoUpdate, herrs, hfind, happ]
  · intro i
    have h2 : (mongoUpdate false store id .undef .undef).2 =
        replaceById store id r := by
      simp [mongoUpdate, herrs, hfind, happ]
    rw [h2]
    by_cases hi : i = id
    · subst hi
      rw [dbFind_replaceById_self store i r r hfind, hfind]
    · exact dbFind_replaceById_ne store id r i hi

/-- Witness for C10 on `demoStore`. -/
theorem C10_update_without_fields_is_noop_witness :
    (mongoUpdate false demoStore "aaaaaaaaaaaaaaaaaaaaaaaa" .undef
      .undef).1.status = 200 ∧
    dbFind (mongoUpdate false demoStore "aaaaaaaaaaaaaaaaaaaaaaaa" .undef
      .undef).2 "aaaaaaaaaaaaaaaaaaaaaaaa" =
      dbFind demoStore "aaaaaaaaaaaaaaaaaaaaaaaa" := by
  have h := C10_update_without_fields_is_noop demoStore
    "aaaaaaaaaaaaaaaaaaaaaaaa"
    { name := "Groceries", state := "active", ownerUuIdentity := MOCK_OWNER,
      members := [{ uuIdentity := MOCK_OWNER, role := "owner" }],
      items := [] }
    (by decide) (by decide)
  refine ⟨?_, h.2 "aaaaaaaaaaaaaaaaaaaaaaaa"⟩
  rw [h.1]

end SL
